import Mathlib

/-!
Verification of the Quote Generator service core (src/routes.js) against its
natural-language specification. The HTTP handlers in routes.js are embedded
shallowly: request bodies become JavaScript-value terms, handlers become pure
state-passing functions on an explicit store/counter state, and the Prometheus
metrics registry becomes an explicit cell-indexed counter map. The database
layer (db.js) and the profanity filter (profanityFilter.js) are not present in
the repository snapshot; the operations the handlers call on them are modelled
from the specification, as marked on each such definition.
-/

namespace QuoteGen

/-- JavaScript values as they can reach the POST /quote handler through
`const { text, author } = req.body`: a missing key destructures to
`undefined`; JSON bodies contribute null, booleans, numbers, strings,
arrays and objects. Array and object contents are irrelevant to the handler
(they are always truthy and never of string type), so those constructors are
opaque. JSON cannot carry NaN, so numbers are exact. -/
inductive JSValue where
  | undef
  | null
  | bool (b : Bool)
  | num (n : Int)
  | str (s : String)
  | arr
  | obj
  deriving Repr, DecidableEq

/-- JavaScript truthiness of a value, as tested by `!text` in the handler:
`undefined`, `null`, `false`, `0` and the empty string are falsy; arrays and
objects are always truthy. -/
def JSValue.truthy : JSValue → Bool
  | .undef => false
  | .null => false
  | .bool b => b
  | .num n => n != 0
  | .str s => s != ""
  | .arr => true
  | .obj => true

/-- Whether `typeof v === 'string'` holds. -/
def JSValue.isString : JSValue → Bool
  | .str _ => true
  | _ => false

/-- The string payload of a string value (only consulted after the
`typeof === 'string'` check has passed). -/
def JSValue.getStr : JSValue → String
  | .str s => s
  | _ => ""

/-- JavaScript `String.prototype.trim()` as used by the handler: strips
leading and trailing whitespace. Defined over the character list so that
concrete runs reduce by evaluation. -/
def jsTrim (s : String) : String :=
  String.mk
    (((s.data.dropWhile Char.isWhitespace).reverse.dropWhile
        Char.isWhitespace).reverse)

/-- Rejection reasons of the POST /quote handler, one per early-return branch
of routes.js lines 108-161, in source order. -/
inductive SubmitReject where
  | missingFields
  | notStrings
  | emptyAfterTrim
  | textTooLong
  | authorTooLong
  | profanity
  deriving Repr, DecidableEq

/-- The validation-and-moderation pipeline of the POST /quote handler
(routes.js lines 105-161), translated check by check. The parameter
`profane` abstracts `!profanityFilter.validateQuote(text, author).isValid`;
profanityFilter.js is not in the repository snapshot, and per the spec the
filter is a pure deterministic predicate on the two fields. On acceptance the
handler passes `text.trim(), author.trim()` to the store (line 164), so the
accepted pair is returned trimmed. -/
def postQuoteOutcome (profane : String → String → Bool) (text author : JSValue) :
    Except SubmitReject (String × String) :=
  if !text.truthy || !author.truthy then
    .error .missingFields
  else if !text.isString || !author.isString then
    .error .notStrings
  else
    let t := text.getStr
    let a := author.getStr
    if (jsTrim t).length == 0 || (jsTrim a).length == 0 then
      .error .emptyAfterTrim
    else if t.length > 1000 then
      .error .textTooLong
    else if a.length > 100 then
      .error .authorTooLong
    else if profane t a then
      .error .profanity
    else
      .ok (jsTrim t, jsTrim a)

/-- Modelled from the claim's words, for comparison with `postQuoteOutcome`:
the same pipeline but with step (1) reading literally "both fields present and
non-null" (present meaning not `undefined`, non-null meaning not `null`),
rather than the JavaScript truthiness test `!text || !author` that the source
performs. All later steps are unchanged. -/
def claimOutcome (profane : String → String → Bool) (text author : JSValue) :
    Except SubmitReject (String × String) :=
  if text == .undef || text == .null || author == .undef || author == .null then
    .error .missingFields
  else if !text.isString || !author.isString then
    .error .notStrings
  else
    let t := text.getStr
    let a := author.getStr
    if (jsTrim t).length == 0 || (jsTrim a).length == 0 then
      .error .emptyAfterTrim
    else if t.length > 1000 then
      .error .textTooLong
    else if a.length > 100 then
      .error .authorTooLong
    else if profane t a then
      .error .profanity
    else
      .ok (jsTrim t, jsTrim a)

/-- A stored quote record, per the data model: id, text, author, views
counter, creation timestamp. -/
structure Quote where
  id : Nat
  text : String
  author : String
  views : Nat
  createdAt : Nat
  deriving Repr, DecidableEq

/-- Modelled from the spec: the Quote Store of db.js, which is not in the
repository snapshot. It holds the live quotes in creation order together with
the next identifier to assign; identifiers are positive, assigned
monotonically increasing, and never reused after deletion. -/
structure Store where
  quotes : List Quote
  nextId : Nat
  deriving Repr, DecidableEq

/-- The store invariant the spec states for identifiers: every live quote's
id is positive and below the next id to be assigned (so ids are fresh and
never reused). -/
def Store.wf (st : Store) : Prop :=
  ∀ q ∈ st.quotes, 0 < q.id ∧ q.id < st.nextId

/-- Modelled from the spec: `addQuote(text, author)` of db.js creates a new
record with a freshly assigned identifier, `views = 0` and the current
timestamp, and appends it to the live set; returns the created quote and the
updated store. -/
def Store.addQuote (st : Store) (text author : String) (now : Nat) :
    Quote × Store :=
  let q : Quote := ⟨st.nextId, text, author, 0, now⟩
  (q, ⟨st.quotes ++ [q], st.nextId + 1⟩)

/-- Modelled from the spec: `deleteQuote(id)` of db.js removes the quote if
present and returns whether a deletion occurred; deleting a non-existent id
is not an error and just reports false. -/
def Store.deleteQuote (st : Store) (id : Nat) : Store × Bool :=
  (⟨st.quotes.filter (fun q => q.id ≠ id), st.nextId⟩,
   st.quotes.any (fun q => q.id = id))

/-- Modelled from the spec: `getRandomQuote()` of db.js selects among the
currently live quotes and increments the selected quote's views by one as a
side effect of the read; on an empty store it returns none rather than
erroring. The random draw is modelled by an oracle index `k`, reduced modulo
the live count. -/
def Store.getRandomQuote (st : Store) (k : Nat) : Option (Quote × Store) :=
  match h : st.quotes.length with
  | 0 => none
  | n + 1 =>
    let i : Fin st.quotes.length := ⟨k % (n + 1), by rw [h]; exact Nat.mod_lt _ (Nat.succ_pos n)⟩
    let q := st.quotes.get i
    let bumped : Quote := { q with views := q.views + 1 }
    some (bumped, ⟨st.quotes.set i bumped, st.nextId⟩)

/-- Modelled from the spec: `getStats()` of db.js returns the live quote
count and the sum of views across all live quotes at the moment of the
call. -/
def Store.getStats (st : Store) : Nat × Nat :=
  (st.quotes.length, (st.quotes.map Quote.views).sum)

/-- The three process-lifetime Prometheus event counters declared at the top
of routes.js: quotes served, quotes added, profanity blocked. -/
structure Counters where
  quotesServed : Nat
  quotesAdded : Nat
  profanityBlocked : Nat
  deriving Repr, DecidableEq

/-- The response classes the POST /quote handler can produce: 201 with the
created quote, or 400 with the first failing check's reason (profanity
rejections are among the 400 responses, with their own reason). -/
inductive PostResponse where
  | created (q : Quote)
  | badRequest (r : SubmitReject)
  deriving Repr, DecidableEq

/-- The POST /quote handler (routes.js lines 103-187) as a state transition:
runs the validation-and-moderation pipeline; on the profanity branch
increments only the blocked counter; on any other rejection touches nothing;
on acceptance calls `db.addQuote` with the trimmed fields and then increments
the added counter. -/
def postQuote (profane : String → String → Bool) (now : Nat)
    (text author : JSValue) (st : Store) (c : Counters) :
    PostResponse × Store × Counters :=
  match postQuoteOutcome profane text author with
  | .error .profanity =>
      (.badRequest .profanity, st,
       { c with profanityBlocked := c.profanityBlocked + 1 })
  | .error r => (.badRequest r, st, c)
  | .ok (t, a) =>
      let (q, st') := st.addQuote t a now
      (.created q, st', { c with quotesAdded := c.quotesAdded + 1 })

/-- The response classes of the GET /quote handler: 200 with the quote
payload, 404 when the store holds no quotes, 500 when the store faults
(the catch branch of routes.js lines 88-95). -/
inductive GetQuoteResponse where
  | okQuote (id : Nat) (text author : String) (views : Nat)
  | noQuotes
  | serverError (msg : String)
  deriving Repr, DecidableEq

/-- The GET /quote handler (routes.js lines 65-96) given the outcome of the
`db.getRandomQuote()` call: a store fault is caught and mapped to a 500
response; a missing quote maps to a 404 with no counter change; a returned
quote is served with the quotes-served counter incremented. -/
def getQuoteHandler (dbRes : Except String (Option (Quote × Store)))
    (st : Store) (c : Counters) : GetQuoteResponse × Store × Counters :=
  match dbRes with
  | .error msg => (.serverError msg, st, c)
  | .ok none => (.noQuotes, st, c)
  | .ok (some (q, st')) =>
      (.okQuote q.id q.text q.author q.views, st',
       { c with quotesServed := c.quotesServed + 1 })

/-- The GET /quote handler on the non-faulting path, with the store call
inlined: the spec-modelled `getRandomQuote` with random oracle `k`. -/
def getQuote (st : Store) (k : Nat) (c : Counters) :
    GetQuoteResponse × Store × Counters :=
  getQuoteHandler (.ok (st.getRandomQuote k)) st c

/-- Whether a GET /quote response actually returned a quote (the 200 class). -/
def GetQuoteResponse.isOk : GetQuoteResponse → Bool
  | .okQuote _ _ _ _ => true
  | _ => false

/-- Numeric value of a list of decimal digit characters. -/
def digitsVal (ds : List Char) : Nat :=
  ds.foldl (fun acc d => 10 * acc + (d.toNat - '0'.toNat)) 0

/-- `Number.parseInt(s, 10)` as called on the id route parameter (routes.js
line 243): skip leading whitespace, consume an optional sign, then take the
longest prefix of decimal digits; the result is NaN (here: none) when that
prefix is empty, and otherwise the signed value of the prefix, ignoring all
trailing characters. -/
def parseIntJS (s : String) : Option Int :=
  let l := s.data.dropWhile Char.isWhitespace
  let sign : Int := if l.head? = some '-' then -1 else 1
  let body := if l.head? = some '-' ∨ l.head? = some '+' then l.tail else l
  let ds := body.takeWhile Char.isDigit
  if ds.isEmpty then none else some (sign * (digitsVal ds : Int))

/-- The response classes of the DELETE /quote/:id handler: 400 when the id
fails to parse to a positive integer, 404 when no quote with the id exists,
200 when a quote was deleted. -/
inductive DeleteResponse where
  | validationError
  | notFoundResp
  | deleted
  deriving Repr, DecidableEq

/-- The DELETE /quote/:id handler (routes.js lines 241-275):
`Number.parseInt(req.params.id, 10)`, a 400 validation error when the result
is NaN or not positive, otherwise the spec-modelled `deleteQuote` on the
parsed id, with a false removal reported as a 404. -/
def deleteHandler (st : Store) (idParam : String) : DeleteResponse × Store :=
  match parseIntJS idParam with
  | none => (.validationError, st)
  | some i =>
      if i ≤ 0 then (.validationError, st)
      else
        let (st', removed) := st.deleteQuote i.toNat
        if removed then (.deleted, st') else (.notFoundResp, st)

/-- The statistics payload of GET /stats (routes.js lines 218-226):
store totals from `db.getStats()` plus the current values of the two
process-lifetime event counters. -/
structure StatsSnapshot where
  totalQuotes : Nat
  totalViews : Nat
  quotesAdded : Nat
  profanityBlocked : Nat
  deriving Repr, DecidableEq

/-- The GET /stats handler (routes.js lines 214-235): reads `db.getStats()`
and the two counters and assembles the snapshot; it performs no writes, so
the store and counters pass through unchanged. -/
def statsHandler (st : Store) (c : Counters) :
    StatsSnapshot × Store × Counters :=
  (⟨(st.getStats).1, (st.getStats).2, c.quotesAdded, c.profanityBlocked⟩,
   st, c)

/-- The labelled Prometheus registry state of routes.js lines 30-41: the
`http_requests_total` counter keyed by {method, route, status} cells and the
`http_request_duration_seconds` histogram keyed by {method, route} cells
(only the per-cell sample counts matter to the claims). -/
structure Metrics where
  httpRequests : String × String × String → Nat
  durationSamples : String × String → Nat

/-- A request as seen by the router-level middleware: method plus the
fields consulted for the route label, where `route` is `req.route?.path`
(undefined — none — in middleware registered with `router.use`, since
Express only sets `req.route` inside a matched route handler). -/
structure Request where
  method : String
  route : Option String
  path : String
  originalUrl : String
  url : String
  deriving Repr, DecidableEq

/-- JavaScript `a || b` on string operands where `a` may be undefined:
falls through when `a` is undefined or the empty string. -/
def orFalsy : Option String → String → String
  | none, b => b
  | some s, b => if s = "" then b else s

/-- The route label computed by the middleware (routes.js line 46):
`req.route?.path || req.path || req.originalUrl || req.url`. -/
def routeLabel (r : Request) : String :=
  orFalsy r.route (orFalsy (some r.path) (orFalsy (some r.originalUrl) r.url))

/-- The metrics middleware's per-request observation (routes.js lines 44-59):
on response finish it increments the single `{method, route, status}` request
counter cell and the timer records one duration sample in the single
`{method, route}` histogram cell, whatever the status was. -/
def observeRequest (m : Metrics) (req : Request) (status : String) : Metrics :=
  { httpRequests := fun cell =>
      if cell = (req.method, routeLabel req, status) then
        m.httpRequests cell + 1
      else m.httpRequests cell,
    durationSamples := fun cell =>
      if cell = (req.method, routeLabel req) then
        m.durationSamples cell + 1
      else m.durationSamples cell }

/-- A rendered text line for one request-counter cell, standing in for the
prom-client text exposition format. -/
def renderCell (cell : String × String × String) (v : Nat) : String :=
  "http_requests_total\x7bmethod=" ++ cell.1 ++ ",route=" ++ cell.2.1 ++
    ",status=" ++ cell.2.2 ++ "\x7d " ++ toString v

/-- The GET /metrics handler (routes.js lines 281-294): renders the current
counter state for a given (finite) list of cells into the scrape text and
returns the registry unchanged — `register.metrics()` only reads. -/
def metricsHandler (m : Metrics) (cells : List (String × String × String)) :
    String × Metrics :=
  (String.intercalate "\n" (cells.map (fun cl => renderCell cl (m.httpRequests cl))), m)

/-- Decidable equality for pipeline outcomes, so that concrete runs of the
handlers can be settled by evaluation. -/
instance {ε α : Type} [DecidableEq ε] [DecidableEq α] :
    DecidableEq (Except ε α)
  | .error e, .error e' =>
      if h : e = e' then isTrue (by rw [h]) else isFalse (by simp [h])
  | .error _, .ok _ => isFalse (by simp)
  | .ok _, .error _ => isFalse (by simp)
  | .ok a, .ok a' =>
      if h : a = a' then isTrue (by rw [h]) else isFalse (by simp [h])

/-- C1 (amended): the submission pipeline evaluates its checks in the fixed
source order with the first failing check determining the rejection reason,
where check (1) is the JavaScript truthiness test `!text || !author` of the
source — which also fails the empty string, numeric 0 and false with the
missing-fields reason — rather than the claim's literal "present and
non-null"; the remaining checks are as claimed: (2) both of string type,
(3) trimmed fields non-empty, (4) untrimmed text length at most 1000,
(5) author length at most 100, and only then the profanity check. Stated as
a characterization of each rejection reason by the conjunction of its check
failing and every earlier check passing; the textTooLong characterization
never consults the profanity filter, so a quote both over-length and profane
is rejected for length, not profanity. -/
theorem postQuote_first_failure_order (pf : String → String → Bool)
    (text author : JSValue) :
    (postQuoteOutcome pf text author = .error .missingFields ↔
      (!text.truthy || !author.truthy) = true) ∧
    (postQuoteOutcome pf text author = .error .notStrings ↔
      ((!text.truthy || !author.truthy) = false ∧
       (!text.isString || !author.isString) = true)) ∧
    (postQuoteOutcome pf text author = .error .emptyAfterTrim ↔
      ((!text.truthy || !author.truthy) = false ∧
       (!text.isString || !author.isString) = false ∧
       ((jsTrim text.getStr).length == 0 || (jsTrim author.getStr).length == 0) = true)) ∧
    (postQuoteOutcome pf text author = .error .textTooLong ↔
      ((!text.truthy || !author.truthy) = false ∧
       (!text.isString || !author.isString) = false ∧
       ((jsTrim text.getStr).length == 0 || (jsTrim author.getStr).length == 0) = false ∧
       1000 < text.getStr.length)) ∧
    (postQuoteOutcome pf text author = .error .authorTooLong ↔
      ((!text.truthy || !author.truthy) = false ∧
       (!text.isString || !author.isString) = false ∧
       ((jsTrim text.getStr).length == 0 || (jsTrim author.getStr).length == 0) = false ∧
       ¬ 1000 < text.getStr.length ∧ 100 < author.getStr.length)) ∧
    (postQuoteOutcome pf text author = .error .profanity ↔
      ((!text.truthy || !author.truthy) = false ∧
       (!text.isString || !author.isString) = false ∧
       ((jsTrim text.getStr).length == 0 || (jsTrim author.getStr).length == 0) = false ∧
       ¬ 1000 < text.getStr.length ∧ ¬ 100 < author.getStr.length ∧
       pf text.getStr author.getStr = true)) := by
  simp only [postQuoteOutcome]
  by_cases h1 : (!text.truthy || !author.truthy) = true
  · rw [if_pos h1]; simp [h1]
  rw [if_neg h1]
  rw [Bool.not_eq_true] at h1
  by_cases h2 : (!text.isString || !author.isString) = true
  · rw [if_pos h2]; simp [h1, h2]
  rw [if_neg h2]
  rw [Bool.not_eq_true] at h2
  by_cases h3 : ((jsTrim text.getStr).length == 0 || (jsTrim author.getStr).length == 0) = true
  · rw [if_pos h3]; simp [h1, h2, h3]
  rw [if_neg h3]
  rw [Bool.not_eq_true] at h3
  by_cases h4 : 1000 < text.getStr.length
  · rw [if_pos h4]; simp [h1, h2, h3, h4]
  rw [if_neg h4]
  by_cases h5 : 100 < author.getStr.length
  · rw [if_pos h5]; simp [h1, h2, h3, h4, h5]
  rw [if_neg h5]
  by_cases h6 : pf text.getStr author.getStr = true
  · rw [if_pos h6]; simp [h1, h2, h3, h4, h5, h6]
  · rw [if_neg h6]
    simp [h1, h2, h3, h4, h5, h6]

/-- C1 (counterexample): at the concrete submission text = "" (present,
non-null, of string type), author = "a", the claim's check order — presence
and non-null first, trimmed non-emptiness third — predicts the emptiness
reason, but the source's truthiness test fails the empty string at the first
check, so the handler reports the missing-fields reason instead: the claim's
description of check (1) does not match the code. -/
theorem postQuote_check_one_is_truthiness :
    postQuoteOutcome (fun _ _ => false) (.str "") (.str "a") =
      .error .missingFields ∧
    claimOutcome (fun _ _ => false) (.str "") (.str "a") =
      .error .emptyAfterTrim ∧
    SubmitReject.missingFields ≠ SubmitReject.emptyAfterTrim := by
  refine ⟨rfl, ?_, by decide⟩
  decide

/-- A structurally failing submission is classified identically by the
pipeline no matter which profanity predicate is plugged in: every check
before the filter reads only the two fields. -/
theorem postQuoteOutcome_filter_indep (pf pf' : String → String → Bool)
    (text author : JSValue) (r : SubmitReject) (hr : r ≠ .profanity)
    (h : postQuoteOutcome pf text author = .error r) :
    postQuoteOutcome pf' text author = .error r := by
  simp only [postQuoteOutcome] at h ⊢
  split_ifs at h ⊢ <;> simp_all

/-- C2: a submission rejected by validation or moderation mutates nothing in
the store: every rejecting branch of the POST /quote handler returns before
the `db.addQuote` call, so the store — and hence its quote count — passes
through unchanged. -/
theorem rejected_submission_store_unchanged (pf : String → String → Bool)
    (now : Nat) (text author : JSValue) (st : Store) (c : Counters)
    (r : SubmitReject) (h : postQuoteOutcome pf text author = .error r) :
    (postQuote pf now text author st c).2.1 = st ∧
    (postQuote pf now text author st c).2.1.quotes.length =
      st.quotes.length := by
  unfold postQuote
  rw [h]
  cases r <;> simp

/-- C2 (witness): the concrete profane submission ("x", "y") under an
all-blocking filter is rejected and leaves the concrete empty store
unchanged. -/
theorem rejected_submission_store_unchanged_witness :
    postQuoteOutcome (fun _ _ => true) (.str "x") (.str "y") =
      .error .profanity ∧
    (postQuote (fun _ _ => true) 0 (.str "x") (.str "y")
        ⟨[], 1⟩ ⟨0, 0, 0⟩).2.1 = ⟨[], 1⟩ :=
  ⟨by decide,
   (rejected_submission_store_unchanged (fun _ _ => true) 0 (.str "x")
      (.str "y") ⟨[], 1⟩ ⟨0, 0, 0⟩ .profanity (by decide)).1⟩

/-- C3: the profanity-blocked counter is incremented by the POST /quote
handler exactly when the pipeline rejects for profanity, and a structural
rejection happens without the moderation filter being consulted: on such a
submission the whole handler outcome is the same under any profanity
predicate. -/
theorem blocked_counter_exactly_on_profanity (pf : String → String → Bool)
    (now : Nat) (text author : JSValue) (st : Store) (c : Counters) :
    ((postQuote pf now text author st c).2.2.profanityBlocked =
      c.profanityBlocked +
        (if postQuoteOutcome pf text author = .error .profanity
         then 1 else 0)) ∧
    (∀ r, postQuoteOutcome pf text author = .error r → r ≠ .profanity →
      ∀ pf', postQuote pf' now text author st c =
        postQuote pf now text author st c) := by
  constructor
  · unfold postQuote
    rcases houtcome : postQuoteOutcome pf text author with r | ok
    · cases r <;> simp_all
    · simp_all
  · intro r h hr pf'
    unfold postQuote
    rw [h, postQuoteOutcome_filter_indep pf pf' text author r hr h]

/-- C3 (witness): a concrete submission with a non-string text field is
rejected structurally, and the handler's result is the same whether the
filter blocks everything or nothing — the filter is not consulted. -/
theorem blocked_counter_exactly_on_profanity_witness :
    postQuote (fun _ _ => false) 0 (.num 0) (.str "y") ⟨[], 1⟩ ⟨0, 0, 0⟩ =
      postQuote (fun _ _ => true) 0 (.num 0) (.str "y") ⟨[], 1⟩ ⟨0, 0, 0⟩ :=
  (blocked_counter_exactly_on_profanity (fun _ _ => true) 0 (.num 0)
      (.str "y") ⟨[], 1⟩ ⟨0, 0, 0⟩).2
    .missingFields (by decide) (by decide) (fun _ _ => false)

/-- C4: fetching a random quote from an empty store yields the no-quotes
response as a normal outcome with nothing mutated; that outcome is a
different response class from a store fault's 500; and the quotes-served
counter moves exactly when a quote is actually returned, for every possible
store-call outcome. -/
theorem empty_store_none_not_fault (st : Store) (k : Nat) (c : Counters)
    (dbRes : Except String (Option (Quote × Store))) (msg : String)
    (hempty : st.quotes = []) :
    getQuote st k c = (.noQuotes, st, c) ∧
    GetQuoteResponse.noQuotes ≠ .serverError msg ∧
    (getQuoteHandler dbRes st c).2.2.quotesServed =
      c.quotesServed +
        (if (getQuoteHandler dbRes st c).1.isOk then 1 else 0) := by
  refine ⟨?_, by simp, ?_⟩
  · rcases st with ⟨qs, nid⟩
    simp only [] at hempty
    subst hempty
    simp [getQuote, getQuoteHandler, Store.getRandomQuote]
  · rcases dbRes with msg' | o
    · simp [getQuoteHandler, GetQuoteResponse.isOk]
    · rcases o with _ | ⟨q, st'⟩ <;>
        simp [getQuoteHandler, GetQuoteResponse.isOk]

/-- C4 (witness): on the concrete empty store the handler returns the
no-quotes response with store and counters untouched, distinct from the
concrete fault response. -/
theorem empty_store_none_not_fault_witness :
    getQuote ⟨[], 1⟩ 0 ⟨0, 0, 0⟩ = (.noQuotes, ⟨[], 1⟩, ⟨0, 0, 0⟩) ∧
    GetQuoteResponse.noQuotes ≠ .serverError "Failed to fetch quote" :=
  ⟨(empty_store_none_not_fault ⟨[], 1⟩ 0 ⟨0, 0, 0⟩ (.ok none)
      "Failed to fetch quote" rfl).1,
   (empty_store_none_not_fault ⟨[], 1⟩ 0 ⟨0, 0, 0⟩ (.ok none)
      "Failed to fetch quote" rfl).2.1⟩

/-- C5: the store delete reports through its boolean exactly whether a quote
with the id was present, deleting an absent id changes nothing and is not an
error, and the handler signals its validation error precisely when the id
parameter fails to parse to a positive integer; with a well-parsed positive
id the handler's outcome is just the boolean's rendering. -/
theorem delete_reports_boolean (st : Store) (idParam : String) (i : Nat) :
    ((deleteHandler st idParam).1 = .validationError ↔
      parseIntJS idParam = none ∨
        ∃ j, parseIntJS idParam = some j ∧ j ≤ 0) ∧
    ((st.deleteQuote i).2 = true ↔ ∃ q ∈ st.quotes, q.id = i) ∧
    ((st.deleteQuote i).2 = false →
      (st.deleteQuote i).1 = st) ∧
    (∀ j : Int, parseIntJS idParam = some j → 0 < j →
      ((deleteHandler st idParam).1 = .deleted ↔
        (st.deleteQuote j.toNat).2 = true)) := by
  refine ⟨?_, ?_, ?_, ?_⟩
  · unfold deleteHandler
    rcases hp : parseIntJS idParam with _ | j
    · simp
    · simp only [hp]
      by_cases hj : j ≤ 0
      · simp [hj]
      · rw [if_neg hj]
        rcases hrem : (st.deleteQuote j.toNat).2 <;> simp_all
  · simp [Store.deleteQuote, List.any_eq_true]
  · intro hfalse
    rcases st with ⟨qs, nid⟩
    have h' : ∀ q ∈ qs, ¬(q.id = i) := by
      simpa [Store.deleteQuote, List.any_eq_false] using hfalse
    have hfil : qs.filter (fun q => decide (q.id ≠ i)) = qs :=
      List.filter_eq_self.mpr (fun q hq => by simpa using h' q hq)
    show (⟨qs.filter (fun q => decide (q.id ≠ i)), nid⟩ : Store) = ⟨qs, nid⟩
    rw [hfil]
  · intro j hj hpos
    unfold deleteHandler
    simp only [hj]
    rw [if_neg (by omega)]
    rcases hdel : st.deleteQuote j.toNat with ⟨st', removed⟩
    simp only [hdel]
    cases removed <;> simp_all

/-- C5 (witness): at the concrete one-quote store, a malformed id is the only
validation error, deleting the absent id 9 reports false and changes
nothing, and the present id 2 renders as a deletion. -/
theorem delete_reports_boolean_witness :
    ((deleteHandler ⟨[⟨2, "t", "a", 0, 0⟩], 3⟩ "xyz").1 = .validationError ↔
      parseIntJS "xyz" = none ∨ ∃ j, parseIntJS "xyz" = some j ∧ j ≤ 0) ∧
    ((Store.deleteQuote ⟨[⟨2, "t", "a", 0, 0⟩], 3⟩ 9).2 = false →
      (Store.deleteQuote ⟨[⟨2, "t", "a", 0, 0⟩], 3⟩ 9).1 =
        ⟨[⟨2, "t", "a", 0, 0⟩], 3⟩) ∧
    ((deleteHandler ⟨[⟨2, "t", "a", 0, 0⟩], 3⟩ "2").1 = .deleted ↔
      (Store.deleteQuote ⟨[⟨2, "t", "a", 0, 0⟩], 3⟩ (Int.toNat 2)).2 = true) :=
  ⟨(delete_reports_boolean ⟨[⟨2, "t", "a", 0, 0⟩], 3⟩ "xyz" 9).1,
   (delete_reports_boolean ⟨[⟨2, "t", "a", 0, 0⟩], 3⟩ "xyz" 9).2.2.1,
   (delete_reports_boolean ⟨[⟨2, "t", "a", 0, 0⟩], 3⟩ "2" 9).2.2.2 2
     (by decide) (by decide)⟩

/-- An accepted pipeline outcome carries exactly the submitted fields with
surrounding whitespace trimmed: acceptance only happens in the final branch,
which returns the trimmed pair. -/
theorem postQuoteOutcome_ok_trimmed (pf : String → String → Bool)
    (text author : JSValue) (t a : String)
    (h : postQuoteOutcome pf text author = .ok (t, a)) :
    t = jsTrim text.getStr ∧ a = jsTrim author.getStr := by
  simp only [postQuoteOutcome] at h
  split_ifs at h
  simp_all

/-- C6: a submission the pipeline accepts is stored: the handler responds
with a created quote whose views counter is zero, whose text and author are
the submitted fields trimmed of surrounding whitespace, and whose id is
distinct from every id already in the (well-formed) store; the created
quote is a member of the resulting store. -/
theorem valid_submission_creates_fresh_quote
    (pf : String → String → Bool) (now : Nat) (text author : JSValue)
    (st : Store) (c : Counters) (t a : String) (hwf : st.wf)
    (h : postQuoteOutcome pf text author = .ok (t, a)) :
    ∃ q, (postQuote pf now text author st c).1 = .created q ∧
      q.views = 0 ∧
      q.text = jsTrim text.getStr ∧
      q.author = jsTrim author.getStr ∧
      (∀ q' ∈ st.quotes, q'.id ≠ q.id) ∧
      q ∈ (postQuote pf now text author st c).2.1.quotes := by
  obtain ⟨ht, ha⟩ := postQuoteOutcome_ok_trimmed pf text author t a h
  refine ⟨⟨st.nextId, t, a, 0, now⟩, ?_, rfl, ht.symm ▸ rfl, ha.symm ▸ rfl,
    ?_, ?_⟩
  · unfold postQuote
    rw [h]
    rfl
  · intro q' hq'
    exact Nat.ne_of_lt (hwf q' hq').2
  · unfold postQuote
    rw [h]
    simp [Store.addQuote]

/-- C6 (witness): the concrete valid submission (" hi ", " bob ") against the
concrete empty store is accepted with views 0, trimmed fields, and a fresh
id. -/
theorem valid_submission_creates_fresh_quote_witness :
    postQuoteOutcome (fun _ _ => false) (.str " hi ") (.str " bob ") =
      .ok ("hi", "bob") ∧
    (∃ q, (postQuote (fun _ _ => false) 7 (.str " hi ") (.str " bob ")
        ⟨[], 1⟩ ⟨0, 0, 0⟩).1 = .created q ∧
      q.views = 0 ∧
      q.text = jsTrim (JSValue.str " hi ").getStr ∧
      q.author = jsTrim (JSValue.str " bob ").getStr ∧
      (∀ q' ∈ (⟨[], 1⟩ : Store).quotes, q'.id ≠ q.id) ∧
      q ∈ (postQuote (fun _ _ => false) 7 (.str " hi ") (.str " bob ")
        ⟨[], 1⟩ ⟨0, 0, 0⟩).2.1.quotes) :=
  ⟨by decide,
   valid_submission_creates_fresh_quote (fun _ _ => false) 7 (.str " hi ")
     (.str " bob ") ⟨[], 1⟩ ⟨0, 0, 0⟩ "hi" "bob"
     (by intro q hq; simp at hq) (by decide)⟩

/-- C7: the statistics snapshot is read-only: the GET /stats handler passes
the store and all counters through unchanged, and a second snapshot taken on
the state the first call returned reports the same totalQuotes and
totalViews; the totals are the live count and the sum of live views. -/
theorem stats_snapshot_read_only (st : Store) (c : Counters) :
    (statsHandler st c).2.1 = st ∧
    (statsHandler st c).2.2 = c ∧
    StatsSnapshot.totalQuotes
        (statsHandler (statsHandler st c).2.1 (statsHandler st c).2.2).1 =
      (statsHandler st c).1.totalQuotes ∧
    StatsSnapshot.totalViews
        (statsHandler (statsHandler st c).2.1 (statsHandler st c).2.2).1 =
      (statsHandler st c).1.totalViews ∧
    (statsHandler st c).1.totalQuotes = st.quotes.length ∧
    (statsHandler st c).1.totalViews = (st.quotes.map Quote.views).sum := by
  refine ⟨rfl, rfl, rfl, rfl, rfl, rfl⟩

/-- C8: observing a request touches exactly one request-counter cell — the
one keyed by the request's method, route label and final status — and
exactly one histogram cell — keyed by method and route label — leaving every
other cell of both families unchanged, for any status (success or failure
alike); rendering the metrics text returns the registry unchanged. -/
theorem request_observation_single_cell (m : Metrics) (req : Request)
    (status : String) (cells : List (String × String × String)) :
    ((observeRequest m req status).httpRequests
        (req.method, routeLabel req, status) =
      m.httpRequests (req.method, routeLabel req, status) + 1) ∧
    (∀ cell, cell ≠ (req.method, routeLabel req, status) →
      (observeRequest m req status).httpRequests cell =
        m.httpRequests cell) ∧
    ((observeRequest m req status).durationSamples
        (req.method, routeLabel req) =
      m.durationSamples (req.method, routeLabel req) + 1) ∧
    (∀ hcell, hcell ≠ (req.method, routeLabel req) →
      (observeRequest m req status).durationSamples hcell =
        m.durationSamples hcell) ∧
    (metricsHandler m cells).2 = m := by
  refine ⟨by simp [observeRequest], ?_, by simp [observeRequest], ?_, rfl⟩
  · intro cell hne
    simp [observeRequest, hne]
  · intro hcell hne
    simp [observeRequest, hne]

/-- C8 (witness): observing one concrete GET /quote request with status 200
on the zeroed registry sets its own counter cell to 1 and its own histogram
cell to 1 and leaves a different status' cell and a different route's
histogram cell at 0. -/
theorem request_observation_single_cell_witness :
    (observeRequest ⟨fun _ => 0, fun _ => 0⟩
        ⟨"GET", none, "/quote", "/quote", "/quote"⟩ "200").httpRequests
      ("GET", "/quote", "200") = 1 ∧
    (observeRequest ⟨fun _ => 0, fun _ => 0⟩
        ⟨"GET", none, "/quote", "/quote", "/quote"⟩ "200").httpRequests
      ("GET", "/quote", "404") = 0 ∧
    (observeRequest ⟨fun _ => 0, fun _ => 0⟩
        ⟨"GET", none, "/quote", "/quote", "/quote"⟩ "200").durationSamples
      ("GET", "/quote") = 1 ∧
    (observeRequest ⟨fun _ => 0, fun _ => 0⟩
        ⟨"GET", none, "/quote", "/quote", "/quote"⟩ "200").durationSamples
      ("GET", "/stats") = 0 :=
  ⟨(request_observation_single_cell ⟨fun _ => 0, fun _ => 0⟩
      ⟨"GET", none, "/quote", "/quote", "/quote"⟩ "200" []).1,
   (request_observation_single_cell ⟨fun _ => 0, fun _ => 0⟩
      ⟨"GET", none, "/quote", "/quote", "/quote"⟩ "200" []).2.1
     ("GET", "/quote", "404") (by decide),
   (request_observation_single_cell ⟨fun _ => 0, fun _ => 0⟩
      ⟨"GET", none, "/quote", "/quote", "/quote"⟩ "200" []).2.2.1,
   (request_observation_single_cell ⟨fun _ => 0, fun _ => 0⟩
      ⟨"GET", none, "/quote", "/quote", "/quote"⟩ "200" []).2.2.2.1
     ("GET", "/stats") (by decide)⟩

/-- C10: in the router-level middleware `req.route` is not set, so the route
label falls through to the raw `req.path`; two requests to distinct
non-empty concrete paths therefore carry distinct labels, their counter and
histogram cells are distinct whatever the methods and statuses, and
observing the first request leaves the second request's cells untouched. -/
theorem middleware_labels_raw_path (m : Metrics) (r1 r2 : Request)
    (s1 s2 : String) (h1 : r1.route = none) (h2 : r2.route = none)
    (hp1 : r1.path ≠ "") (hp2 : r2.path ≠ "")
    (hne : r1.path ≠ r2.path) :
    routeLabel r1 = r1.path ∧
    routeLabel r2 = r2.path ∧
    (r1.method, routeLabel r1, s1) ≠ (r2.method, routeLabel r2, s2) ∧
    (r1.method, routeLabel r1) ≠ (r2.method, routeLabel r2) ∧
    (observeRequest m r1 s1).httpRequests
        (r2.method, routeLabel r2, s2) =
      m.httpRequests (r2.method, routeLabel r2, s2) ∧
    (observeRequest m r1 s1).durationSamples (r2.method, routeLabel r2) =
      m.durationSamples (r2.method, routeLabel r2) := by
  have hl1 : routeLabel r1 = r1.path := by
    simp [routeLabel, orFalsy, h1, hp1]
  have hl2 : routeLabel r2 = r2.path := by
    simp [routeLabel, orFalsy, h2, hp2]
  have hne' : r2.path ≠ r1.path := Ne.symm hne
  refine ⟨hl1, hl2, ?_, ?_, ?_, ?_⟩
  · simp [hl1, hl2, Prod.ext_iff, hne]
  · simp [hl1, hl2, Prod.ext_iff, hne]
  · simp only [observeRequest]
    rw [if_neg (by simp [hl1, hl2, Prod.ext_iff, hne'])]
  · simp only [observeRequest]
    rw [if_neg (by simp [hl1, hl2, Prod.ext_iff, hne'])]

/-- C10 (witness): the concrete deletes of quote ids 1 and 2 produce the
labels /quote/1 and /quote/2, hence distinct cells, and observing the first
leaves the second's cells at 0. -/
theorem middleware_labels_raw_path_witness :
    routeLabel ⟨"DELETE", none, "/quote/1", "/quote/1", "/quote/1"⟩ =
      "/quote/1" ∧
    ("DELETE", routeLabel ⟨"DELETE", none, "/quote/1", "/quote/1",
        "/quote/1"⟩, "200") ≠
      ("DELETE", routeLabel ⟨"DELETE", none, "/quote/2", "/quote/2",
        "/quote/2"⟩, "200") ∧
    (observeRequest ⟨fun _ => 0, fun _ => 0⟩
        ⟨"DELETE", none, "/quote/1", "/quote/1", "/quote/1"⟩
        "200").httpRequests
      ("DELETE", routeLabel ⟨"DELETE", none, "/quote/2", "/quote/2",
        "/quote/2"⟩, "200") = 0 := by
  refine ⟨?_, ?_, ?_⟩
  · exact (middleware_labels_raw_path ⟨fun _ => 0, fun _ => 0⟩
      ⟨"DELETE", none, "/quote/1", "/quote/1", "/quote/1"⟩
      ⟨"DELETE", none, "/quote/2", "/quote/2", "/quote/2"⟩ "200" "200"
      rfl rfl (by decide) (by decide) (by decide)).1
  · exact (middleware_labels_raw_path ⟨fun _ => 0, fun _ => 0⟩
      ⟨"DELETE", none, "/quote/1", "/quote/1", "/quote/1"⟩
      ⟨"DELETE", none, "/quote/2", "/quote/2", "/quote/2"⟩ "200" "200"
      rfl rfl (by decide) (by decide) (by decide)).2.2.1
  · exact (middleware_labels_raw_path ⟨fun _ => 0, fun _ => 0⟩
      ⟨"DELETE", none, "/quote/1", "/quote/1", "/quote/1"⟩
      ⟨"DELETE", none, "/quote/2", "/quote/2", "/quote/2"⟩ "200" "200"
      rfl rfl (by decide) (by decide) (by decide)).2.2.2.2.1

/-- Every decimal digit character is a digit, is not whitespace, and is
neither sign character. -/
theorem digit_char_facts (d : Char)
    (h : d ∈ ['0', '1', '2', '3', '4', '5', '6', '7', '8', '9']) :
    d.isDigit = true ∧ d.isWhitespace = false ∧ d ≠ '-' ∧ d ≠ '+' := by
  simp only [List.mem_cons, List.not_mem_nil, or_false] at h
  rcases h with rfl | rfl | rfl | rfl | rfl | rfl | rfl | rfl | rfl | rfl <;>
    refine ⟨by decide, by decide, by decide, by decide⟩

/-- takeWhile over a digit prefix followed by a non-digit (or nothing)
returns exactly the prefix. -/
theorem takeWhile_digit_prefix (ds rest : List Char)
    (hds : ∀ d ∈ ds, d.isDigit = true)
    (hrest : ∀ c, rest.head? = some c → c.isDigit = false) :
    (ds ++ rest).takeWhile Char.isDigit = ds := by
  induction ds with
  | nil =>
    simp only [List.nil_append]
    cases rest with
    | nil => rfl
    | cons c cs =>
      have hc := hrest c rfl
      simp [List.takeWhile_cons, hc]
  | cons d ds ih =>
    have hd := hds d (List.mem_cons_self d ds)
    have ih' := ih (fun x hx => hds x (List.mem_cons_of_mem d hx))
    simp [List.takeWhile_cons, hd, ih']

/-- JavaScript parseInt on a string that starts with a maximal non-empty
run of decimal digits returns the value of that run, whatever trails it. -/
theorem parseIntJS_digit_prefix (ds rest : List Char) (hne : ds ≠ [])
    (hds : ∀ d ∈ ds, d ∈ ['0', '1', '2', '3', '4', '5', '6', '7', '8', '9'])
    (hrest : ∀ c, rest.head? = some c → c.isDigit = false) :
    parseIntJS (String.mk (ds ++ rest)) = some ((digitsVal ds : Int)) := by
  obtain ⟨d, ds', rfl⟩ := List.exists_cons_of_ne_nil hne
  obtain ⟨hdig, hws, hminus, hplus⟩ :=
    digit_char_facts d (hds d (List.mem_cons_self d ds'))
  have hdigits : ∀ x ∈ d :: ds', x.isDigit = true :=
    fun x hx => (digit_char_facts x (hds x hx)).1
  simp only [parseIntJS, List.cons_append, List.dropWhile_cons, hws,
    Bool.false_eq_true, if_false, List.head?_cons, Option.some.injEq,
    hminus, hplus, or_self, if_false]
  rw [show ((d :: (ds' ++ rest)) = (d :: ds') ++ rest) from rfl,
    takeWhile_digit_prefix (d :: ds') rest hdigits hrest]
  simp

/-- C9: a delete id parameter that begins with the decimal digits of a
positive integer followed by arbitrary non-digit-led trailing characters is
not rejected as malformed: parseInt takes the leading digit run, so the
handler proceeds to delete that integer id and renders the deletion
boolean; conversely a parameter with no digit run (NaN) or a non-positive
parsed value is the one rejected with the validation error. -/
theorem delete_id_trailing_chars_accepted (st : Store)
    (ds rest : List Char) (hne : ds ≠ [])
    (hds : ∀ d ∈ ds, d ∈ ['0', '1', '2', '3', '4', '5', '6', '7', '8', '9'])
    (hrest : ∀ c, rest.head? = some c → c.isDigit = false)
    (hpos : 0 < digitsVal ds) :
    (deleteHandler st (String.mk (ds ++ rest))).1 ≠ .validationError ∧
    deleteHandler st (String.mk (ds ++ rest)) =
      (if (st.deleteQuote (digitsVal ds)).2 then
        (.deleted, (st.deleteQuote (digitsVal ds)).1)
       else (.notFoundResp, st)) ∧
    (∀ s : String, parseIntJS s = none →
      (deleteHandler st s).1 = .validationError) ∧
    (∀ (s : String) (i : Int), parseIntJS s = some i → i ≤ 0 →
      (deleteHandler st s).1 = .validationError) := by
  have hp := parseIntJS_digit_prefix ds rest hne hds hrest
  have hmain : deleteHandler st (String.mk (ds ++ rest)) =
      (if (st.deleteQuote (digitsVal ds)).2 then
        (.deleted, (st.deleteQuote (digitsVal ds)).1)
       else (.notFoundResp, st)) := by
    unfold deleteHandler
    simp only [hp]
    rw [if_neg (show ¬((digitsVal ds : Int) ≤ 0) from by
      exact_mod_cast Nat.not_le.mpr hpos)]
    rcases hdel : st.deleteQuote (Int.toNat (digitsVal ds)) with ⟨st', rem⟩
    rw [Int.toNat_natCast] at hdel
    simp only [Int.toNat_natCast, hdel]
  refine ⟨?_, hmain, ?_, ?_⟩
  · rw [hmain]
    rcases hdel : (st.deleteQuote (digitsVal ds)).2 <;> simp
  · intro s hnone
    unfold deleteHandler
    simp [hnone]
  · intro s i hi hle
    unfold deleteHandler
    simp [hi, hle]

/-- C9 (witness): the concrete parameter "5abc" deletes quote 5 from the
concrete store holding it and is not a validation error, while "z9" (no
digit prefix) and "-2x" (non-positive parse) are validation errors. -/
theorem delete_id_trailing_chars_accepted_witness :
    (deleteHandler ⟨[⟨5, "t", "x", 0, 0⟩], 6⟩
        (String.mk ['5', 'a', 'b', 'c'])).1 ≠
      DeleteResponse.validationError ∧
    (deleteHandler ⟨[⟨5, "t", "x", 0, 0⟩], 6⟩ "z9").1 =
      DeleteResponse.validationError ∧
    (deleteHandler ⟨[⟨5, "t", "x", 0, 0⟩], 6⟩ "-2x").1 =
      DeleteResponse.validationError :=
  ⟨(delete_id_trailing_chars_accepted ⟨[⟨5, "t", "x", 0, 0⟩], 6⟩ ['5']
      ['a', 'b', 'c'] (by decide) (by decide)
      (fun c hc => by
        have h := Option.some.inj hc
        subst h
        decide)
      (by decide)).1,
   (delete_id_trailing_chars_accepted ⟨[⟨5, "t", "x", 0, 0⟩], 6⟩ ['5']
      ['a', 'b', 'c'] (by decide) (by decide)
      (fun c hc => by
        have h := Option.some.inj hc
        subst h
        decide)
      (by decide)).2.2.1 "z9" (by decide),
   (delete_id_trailing_chars_accepted ⟨[⟨5, "t", "x", 0, 0⟩], 6⟩ ['5']
      ['a', 'b', 'c'] (by decide) (by decide)
      (fun c hc => by
        have h := Option.some.inj hc
        subst h
        decide)
      (by decide)).2.2.2 "-2x" (-2) (by decide) (by decide)⟩

end QuoteGen
